import Mathlib

/-
Verification of the SYS-4029GP-TRT GPU fan controller (fan_controller.py).

The development shallowly embeds the controller's core logic:
  - configuration constants,
  - TemperatureAverager (a deque with maxlen, modelled as a list that drops
    its oldest elements once over capacity),
  - exponential_fan_curve (real-valued, with real-exponent power),
  - calculate_fan_speed (hysteresis damping, Python int() truncation),
  - the main control loop (one tick = sensor read, averaging, curve,
    damping, actuator write; modelled as a function of the tick's
    environment inputs: sensor result and actuator success).
-/

/- Configuration constants from the top of fan_controller.py. -/

def MIN_SPEED : ℤ := 18

def MAX_SPEED : ℤ := 100

def TEMP_LOW : ℝ := 70

def TEMP_HIGH : ℝ := 90

def CHECK_INTERVAL : ℕ := 2

def SMOOTHING_SAMPLES : ℕ := 10

noncomputable def EXPONENTIAL_FACTOR : ℝ := 2.5

/- TemperatureAverager: `temperature_history = deque(maxlen=window_size)`.
A deque with maxlen keeps the most recent elements, evicting from the left
once full; we model the history as a list (oldest first) and eviction as
dropping the over-capacity front elements after an append. -/

structure TemperatureAverager where
  temperature_history : List ℝ
  window_size : ℕ

/-- Constructor: an empty history with the given capacity. -/
def TemperatureAverager.init (window_size : ℕ) : TemperatureAverager :=
  ⟨[], window_size⟩

/-- add_temperature: `self.temperature_history.append(temp)` on a deque with
maxlen, i.e. append then drop from the front anything over capacity. -/
def TemperatureAverager.add_temperature (a : TemperatureAverager) (temp : ℝ) :
    TemperatureAverager :=
  let h := a.temperature_history ++ [temp]
  ⟨h.drop (h.length - a.window_size), a.window_size⟩

/-- get_smoothed_temperature: None on an empty history, else the mean. -/
noncomputable def TemperatureAverager.get_smoothed_temperature
    (a : TemperatureAverager) : Option ℝ :=
  match a.temperature_history with
  | [] => none
  | _ => some (a.temperature_history.sum / a.temperature_history.length)

/-- Maximum of a nonempty list, as Python's max; the empty case never arises
in the controller (guarded by the None checks). -/
noncomputable def list_max : List ℝ → ℝ
  | [] => 0
  | t :: ts => ts.foldl max t

/-- get_max_temperature: None on an empty history, else the maximum. -/
noncomputable def TemperatureAverager.get_max_temperature
    (a : TemperatureAverager) : Option ℝ :=
  match a.temperature_history with
  | [] => none
  | _ => some (list_max a.temperature_history)

/-- is_ready: `len(self.temperature_history) >= self.window_size // 2`. -/
def TemperatureAverager.is_ready (a : TemperatureAverager) : Bool :=
  decide (a.window_size / 2 ≤ a.temperature_history.length)

/-- Feeding a whole list of samples, one add_temperature per element. -/
def TemperatureAverager.addAll (a : TemperatureAverager) :
    List ℝ → TemperatureAverager
  | [] => a
  | t :: ts => (a.add_temperature t).addAll ts

lemma TemperatureAverager.add_window (a : TemperatureAverager) (t : ℝ) :
    (a.add_temperature t).window_size = a.window_size := rfl

lemma TemperatureAverager.add_history (a : TemperatureAverager) (t : ℝ) :
    (a.add_temperature t).temperature_history =
      (a.temperature_history ++ [t]).drop
        (a.temperature_history.length + 1 - a.window_size) := by
  simp [TemperatureAverager.add_temperature]

lemma TemperatureAverager.add_length (a : TemperatureAverager) (t : ℝ)
    (h : a.temperature_history.length ≤ a.window_size) :
    (a.add_temperature t).temperature_history.length =
      min (a.temperature_history.length + 1) a.window_size := by
  rw [TemperatureAverager.add_history]
  simp [List.length_drop]
  omega

lemma TemperatureAverager.addAll_spec (ts : List ℝ) :
    ∀ a : TemperatureAverager,
      a.temperature_history.length ≤ a.window_size →
      (a.addAll ts).temperature_history =
          (a.temperature_history ++ ts).drop
            (a.temperature_history.length + ts.length - a.window_size) ∧
        (a.addAll ts).window_size = a.window_size := by
  induction ts with
  | nil =>
      intro a ha
      refine ⟨?_, rfl⟩
      have hidx : a.temperature_history.length + ([] : List ℝ).length -
          a.window_size = 0 := by simp; omega
      rw [show a.addAll [] = a from rfl, hidx]
      simp
  | cons t ts ih =>
      intro a ha
      have hlen1 : (a.add_temperature t).temperature_history.length ≤
          (a.add_temperature t).window_size := by
        rw [TemperatureAverager.add_length a t ha,
          TemperatureAverager.add_window]
        omega
      obtain ⟨ih1, ih2⟩ := ih (a.add_temperature t) hlen1
      refine ⟨?_, ?_⟩
      · rw [show (a.addAll (t :: ts)) = (a.add_temperature t).addAll ts
          from rfl, ih1, TemperatureAverager.add_length a t ha,
          TemperatureAverager.add_window,
          TemperatureAverager.add_history]
        have hd : a.temperature_history.length + 1 - a.window_size ≤
            (a.temperature_history ++ [t]).length := by
          simp
        rw [← List.drop_append_of_le_length hd, List.drop_drop]
        have hassoc : a.temperature_history ++ [t] ++ ts =
            a.temperature_history ++ t :: ts := by simp
        rw [hassoc]
        congr 1
        simp only [List.length_cons]
        omega
      · rw [show (a.addAll (t :: ts)) = (a.add_temperature t).addAll ts
          from rfl, ih2, TemperatureAverager.add_window]

lemma TemperatureAverager.addAll_init_history (w : ℕ) (ts : List ℝ) :
    ((TemperatureAverager.init w).addAll ts).temperature_history =
      ts.drop (ts.length - w) := by
  have h := (TemperatureAverager.addAll_spec ts (TemperatureAverager.init w)
    (by simp [TemperatureAverager.init])).1
  simpa [TemperatureAverager.init] using h

lemma TemperatureAverager.addAll_init_window (w : ℕ) (ts : List ℝ) :
    ((TemperatureAverager.init w).addAll ts).window_size = w := by
  exact (TemperatureAverager.addAll_spec ts (TemperatureAverager.init w)
    (by simp [TemperatureAverager.init])).2

lemma TemperatureAverager.addAll_init_length (w : ℕ) (ts : List ℝ) :
    ((TemperatureAverager.init w).addAll ts).temperature_history.length =
      min ts.length w := by
  rw [TemperatureAverager.addAll_init_history]
  simp [List.length_drop]
  omega

/-- Claim C8: the averaging window never exceeds its configured capacity,
keeps samples in insertion order, and evicts the oldest entry first: after
any sequence of adds it equals exactly the most recent windowSize values
added (the list with all but the last windowSize elements dropped). -/
theorem averaging_window_fifo (w : ℕ) (ts : List ℝ) :
    ((TemperatureAverager.init w).addAll ts).temperature_history =
        ts.drop (ts.length - w) ∧
      ((TemperatureAverager.init w).addAll ts).temperature_history.length ≤
        w := by
  refine ⟨TemperatureAverager.addAll_init_history w ts, ?_⟩
  rw [TemperatureAverager.addAll_init_length]
  omega

/-- Claim C1 (counterexample): with windowSize = 3 and a single sample added,
the code's is_ready is already true although only 1 < ceil(3/2) = 2 samples
have been added — the claim's ceil threshold is wrong for odd window sizes
(the code uses floor: windowSize // 2). -/
theorem is_ready_ceil_counterexample :
    ((TemperatureAverager.init 3).addAll [75]).is_ready = true ∧
      ([(75 : ℝ)] : List ℝ).length < (3 + 1) / 2 := by
  constructor
  · rfl
  · decide

/-- Claim C1 (amended: threshold is floor(windowSize/2), i.e. the integer
division windowSize // 2, not ceil): for windowSize ≥ 1 and any sequence of
added samples, is_ready is true exactly when at least windowSize // 2 samples
have been added, and once true it stays true after every further add. -/
theorem is_ready_floor_threshold (w : ℕ) (hw : 1 ≤ w) (ts : List ℝ) :
    (((TemperatureAverager.init w).addAll ts).is_ready = true ↔
        w / 2 ≤ ts.length) ∧
      ∀ t : ℝ, ((TemperatureAverager.init w).addAll ts).is_ready = true →
        (((TemperatureAverager.init w).addAll ts).add_temperature t).is_ready
          = true := by
  have hlen := TemperatureAverager.addAll_init_length w ts
  have hwin := TemperatureAverager.addAll_init_window w ts
  constructor
  · rw [TemperatureAverager.is_ready, decide_eq_true_iff, hlen, hwin]
    omega
  · intro t h
    rw [TemperatureAverager.is_ready, decide_eq_true_iff] at h ⊢
    rw [TemperatureAverager.add_length _ t (by rw [hlen, hwin]; omega),
      TemperatureAverager.add_window, hlen, hwin] at *
    omega

/-- Witness for the amended C1 at windowSize 2 with one sample added. -/
theorem is_ready_floor_threshold_witness :
    (1 ≤ 2) ∧
      ((((TemperatureAverager.init 2).addAll [(50 : ℝ)]).is_ready = true ↔
          2 / 2 ≤ ([(50 : ℝ)] : List ℝ).length) ∧
        ∀ t : ℝ,
          ((TemperatureAverager.init 2).addAll [(50 : ℝ)]).is_ready = true →
          (((TemperatureAverager.init 2).addAll
              [(50 : ℝ)]).add_temperature t).is_ready = true) :=
  ⟨by decide, is_ready_floor_threshold 2 (by decide) [(50 : ℝ)]⟩

/- exponential_fan_curve: the temperature-to-speed transfer function.
Python floats are modelled as real numbers; `normalized_temp ** factor` is
the real power (Real.rpow). -/

noncomputable def exponential_fan_curve
    (temp min_temp max_temp min_speed max_speed factor : ℝ) : ℝ :=
  if temp ≤ min_temp then min_speed
  else if max_temp ≤ temp then max_speed
  else
    let normalized_temp := (temp - min_temp) / (max_temp - min_temp)
    let exponential_value := normalized_temp ^ factor
    min_speed + exponential_value * (max_speed - min_speed)

/-- The curve at the source's default arguments (the module constants). -/
noncomputable def exponential_fan_curve_default (temp : ℝ) : ℝ :=
  exponential_fan_curve temp TEMP_LOW TEMP_HIGH (MIN_SPEED : ℝ)
    (MAX_SPEED : ℝ) EXPONENTIAL_FACTOR

lemma exponential_fan_curve_eq_low {temp min_temp max_temp : ℝ}
    (min_speed max_speed factor : ℝ) (h : temp ≤ min_temp) :
    exponential_fan_curve temp min_temp max_temp min_speed max_speed factor =
      min_speed := by
  simp only [exponential_fan_curve]
  rw [if_pos h]

lemma exponential_fan_curve_eq_high {temp min_temp max_temp : ℝ}
    (min_speed max_speed factor : ℝ) (hlh : min_temp < max_temp)
    (h : max_temp ≤ temp) :
    exponential_fan_curve temp min_temp max_temp min_speed max_speed factor =
      max_speed := by
  simp only [exponential_fan_curve]
  rw [if_neg (by linarith), if_pos h]

lemma exponential_fan_curve_interior {temp min_temp max_temp : ℝ}
    (min_speed max_speed factor : ℝ) (h1 : min_temp < temp)
    (h2 : temp < max_temp) :
    exponential_fan_curve temp min_temp max_temp min_speed max_speed factor =
      min_speed + ((temp - min_temp) / (max_temp - min_temp)) ^ factor *
        (max_speed - min_speed) := by
  simp only [exponential_fan_curve]
  rw [if_neg (not_le.2 h1), if_neg (not_le.2 h2)]

lemma exponential_fan_curve_bounds (temp min_temp max_temp min_speed
    max_speed factor : ℝ) (hlh : min_temp < max_temp)
    (hmn : min_speed ≤ max_speed) (hf : 0 ≤ factor) :
    min_speed ≤
        exponential_fan_curve temp min_temp max_temp min_speed max_speed
          factor ∧
      exponential_fan_curve temp min_temp max_temp min_speed max_speed factor
        ≤ max_speed := by
  by_cases c1 : temp ≤ min_temp
  · rw [exponential_fan_curve_eq_low _ _ _ c1]
    exact ⟨le_rfl, hmn⟩
  by_cases c2 : max_temp ≤ temp
  · rw [exponential_fan_curve_eq_high _ _ _ hlh c2]
    exact ⟨hmn, le_rfl⟩
  have h1 : min_temp < temp := not_le.1 c1
  have h2 : temp < max_temp := not_le.1 c2
  rw [exponential_fan_curve_interior _ _ _ h1 h2]
  have hd : (0 : ℝ) < max_temp - min_temp := by linarith
  have hx0 : 0 ≤ (temp - min_temp) / (max_temp - min_temp) :=
    div_nonneg (by linarith) hd.le
  have hx1 : (temp - min_temp) / (max_temp - min_temp) ≤ 1 :=
    (div_le_one hd).2 (by linarith)
  have he0 : 0 ≤ ((temp - min_temp) / (max_temp - min_temp)) ^ factor :=
    Real.rpow_nonneg hx0 factor
  have he1 : ((temp - min_temp) / (max_temp - min_temp)) ^ factor ≤ 1 :=
    Real.rpow_le_one hx0 hx1 hf
  constructor
  · nlinarith [mul_nonneg he0 (sub_nonneg.2 hmn)]
  · nlinarith [mul_nonneg (sub_nonneg.2 he1) (sub_nonneg.2 hmn)]

/-- Claim C3: with the startup invariants tempLow < tempHigh and
minSpeed < maxSpeed, the curve at the source's exponential factor returns
exactly minSpeed for temp at or below tempLow, exactly maxSpeed for temp at
or above tempHigh, and a value within the speed bounds strictly between. -/
theorem exponential_fan_curve_clamp (temp min_temp max_temp min_speed
    max_speed : ℝ) (hlh : min_temp < max_temp)
    (hmn : min_speed < max_speed) :
    (temp ≤ min_temp →
        exponential_fan_curve temp min_temp max_temp min_speed max_speed
          EXPONENTIAL_FACTOR = min_speed) ∧
      (max_temp ≤ temp →
        exponential_fan_curve temp min_temp max_temp min_speed max_speed
          EXPONENTIAL_FACTOR = max_speed) ∧
      (min_temp < temp → temp < max_temp →
        min_speed ≤
            exponential_fan_curve temp min_temp max_temp min_speed max_speed
              EXPONENTIAL_FACTOR ∧
          exponential_fan_curve temp min_temp max_temp min_speed max_speed
            EXPONENTIAL_FACTOR ≤ max_speed) := by
  refine ⟨fun h => exponential_fan_curve_eq_low _ _ _ h,
    fun h => exponential_fan_curve_eq_high _ _ _ hlh h, fun _ _ => ?_⟩
  exact exponential_fan_curve_bounds temp min_temp max_temp min_speed
    max_speed EXPONENTIAL_FACTOR hlh hmn.le
    (by norm_num [EXPONENTIAL_FACTOR])

/-- Witness for C3 at the repository's configuration, one temperature per
branch of the curve. -/
theorem exponential_fan_curve_clamp_witness :
    ((70 : ℝ) < 90 ∧ (18 : ℝ) < 100) ∧
      exponential_fan_curve 60 70 90 18 100 EXPONENTIAL_FACTOR = 18 ∧
      exponential_fan_curve 95 70 90 18 100 EXPONENTIAL_FACTOR = 100 ∧
      (18 ≤ exponential_fan_curve 80 70 90 18 100 EXPONENTIAL_FACTOR ∧
        exponential_fan_curve 80 70 90 18 100 EXPONENTIAL_FACTOR ≤ 100) :=
  ⟨⟨by norm_num, by norm_num⟩,
    (exponential_fan_curve_clamp 60 70 90 18 100 (by norm_num)
      (by norm_num)).1 (by norm_num),
    (exponential_fan_curve_clamp 95 70 90 18 100 (by norm_num)
      (by norm_num)).2.1 (by norm_num),
    (exponential_fan_curve_clamp 80 70 90 18 100 (by norm_num)
      (by norm_num)).2.2 (by norm_num) (by norm_num)⟩

/-- Claim C4: for any fixed curveFactor at least 1 (and the startup
invariants), the curve is monotonically non-decreasing in temperature. -/
theorem exponential_fan_curve_mono (min_temp max_temp min_speed max_speed
    factor t1 t2 : ℝ) (hlh : min_temp < max_temp)
    (hmn : min_speed ≤ max_speed) (hf : 1 ≤ factor) (h12 : t1 ≤ t2) :
    exponential_fan_curve t1 min_temp max_temp min_speed max_speed factor ≤
      exponential_fan_curve t2 min_temp max_temp min_speed max_speed
        factor := by
  have hf0 : (0 : ℝ) ≤ factor := le_trans zero_le_one hf
  by_cases c1 : t1 ≤ min_temp
  · rw [exponential_fan_curve_eq_low _ _ _ c1]
    exact (exponential_fan_curve_bounds t2 min_temp max_temp min_speed
      max_speed factor hlh hmn hf0).1
  have h1 : min_temp < t1 := not_le.1 c1
  by_cases c2 : max_temp ≤ t1
  · rw [exponential_fan_curve_eq_high _ _ _ hlh c2,
      exponential_fan_curve_eq_high _ _ _ hlh (le_trans c2 h12)]
  have h2 : t1 < max_temp := not_le.1 c2
  by_cases c3 : max_temp ≤ t2
  · rw [exponential_fan_curve_eq_high _ _ _ hlh c3]
    exact (exponential_fan_curve_bounds t1 min_temp max_temp min_speed
      max_speed factor hlh hmn hf0).2
  have h3 : t2 < max_temp := not_le.1 c3
  have h4 : min_temp < t2 := lt_of_lt_of_le h1 h12
  rw [exponential_fan_curve_interior _ _ _ h1 h2,
    exponential_fan_curve_interior _ _ _ h4 h3]
  have hd : (0 : ℝ) < max_temp - min_temp := by linarith
  have hx0 : 0 ≤ (t1 - min_temp) / (max_temp - min_temp) :=
    div_nonneg (by linarith) hd.le
  have hx12 : (t1 - min_temp) / (max_temp - min_temp) ≤
      (t2 - min_temp) / (max_temp - min_temp) :=
    (div_le_div_iff_of_pos_right hd).2 (by linarith)
  have hp := Real.rpow_le_rpow hx0 hx12 hf0
  have := mul_le_mul_of_nonneg_right hp (sub_nonneg.2 hmn)
  linarith

/-- Witness for C4 at the repository's configuration and two temperatures. -/
theorem exponential_fan_curve_mono_witness :
    ((70 : ℝ) < 90 ∧ (18 : ℝ) ≤ 100 ∧ (1 : ℝ) ≤ EXPONENTIAL_FACTOR ∧
        (60 : ℝ) ≤ 95) ∧
      exponential_fan_curve 60 70 90 18 100 EXPONENTIAL_FACTOR ≤
        exponential_fan_curve 95 70 90 18 100 EXPONENTIAL_FACTOR :=
  ⟨⟨by norm_num, by norm_num, by norm_num [EXPONENTIAL_FACTOR], by norm_num⟩,
    exponential_fan_curve_mono 70 90 18 100 EXPONENTIAL_FACTOR 60 95
      (by norm_num) (by norm_num) (by norm_num [EXPONENTIAL_FACTOR])
      (by norm_num)⟩

/-- Modelled from the spec: the plain linear script variant is not present
under src; per the spec its interpolation maps temp to
minSpeed plus (temp - tempLow)/(tempHigh - tempLow) times
(maxSpeed - minSpeed). -/
noncomputable def linear_interpolation
    (temp min_temp max_temp min_speed max_speed : ℝ) : ℝ :=
  min_speed + (temp - min_temp) / (max_temp - min_temp) *
    (max_speed - min_speed)

/-- Claim C5: with curveFactor 1 the exponential curve coincides with the
plain linear interpolation on the open interval between the breakpoints. -/
theorem exponential_factor_one_eq_linear (temp min_temp max_temp min_speed
    max_speed : ℝ) (h1 : min_temp < temp) (h2 : temp < max_temp) :
    exponential_fan_curve temp min_temp max_temp min_speed max_speed 1 =
      linear_interpolation temp min_temp max_temp min_speed max_speed := by
  rw [exponential_fan_curve_interior _ _ _ h1 h2, Real.rpow_one,
    linear_interpolation]

/-- Witness for C5 at the repository's configuration and temperature 80. -/
theorem exponential_factor_one_eq_linear_witness :
    ((70 : ℝ) < 80 ∧ (80 : ℝ) < 90) ∧
      exponential_fan_curve 80 70 90 18 100 1 =
        linear_interpolation 80 70 90 18 100 :=
  ⟨⟨by norm_num, by norm_num⟩,
    exponential_factor_one_eq_linear 80 70 90 18 100 (by norm_num)
      (by norm_num)⟩

/- calculate_fan_speed: hysteresis damping around the curve. Python's int()
truncates toward zero. -/

noncomputable def pyInt (x : ℝ) : ℤ :=
  if 0 ≤ x then Int.floor x else Int.ceil x

/-- calculate_fan_speed from fan_controller.py: compute the curve at the
default configuration; with a previous speed, keep it when the (float)
difference is smaller than 2, else return the truncated new value. -/
noncomputable def calculate_fan_speed (max_temp : ℝ)
    (previous_speed : Option ℤ) : ℤ :=
  let fan_speed := exponential_fan_curve_default max_temp
  match previous_speed with
  | some prev => if |fan_speed - (prev : ℝ)| < 2 then prev else pyInt fan_speed
  | none => pyInt fan_speed

lemma exponential_fan_curve_default_bounds (t : ℝ) :
    (18 : ℝ) ≤ exponential_fan_curve_default t ∧
      exponential_fan_curve_default t ≤ 100 := by
  have h := exponential_fan_curve_bounds t TEMP_LOW TEMP_HIGH (MIN_SPEED : ℝ)
    (MAX_SPEED : ℝ) EXPONENTIAL_FACTOR (by norm_num [TEMP_LOW, TEMP_HIGH])
    (by norm_num [MIN_SPEED, MAX_SPEED]) (by norm_num [EXPONENTIAL_FACTOR])
  simpa [exponential_fan_curve_default, MIN_SPEED, MAX_SPEED] using h

lemma calculate_fan_speed_some (temp : ℝ) (prev : ℤ) :
    calculate_fan_speed temp (some prev) =
      if |exponential_fan_curve_default temp - (prev : ℝ)| < 2 then prev
      else pyInt (exponential_fan_curve_default temp) := rfl

/-- Claim C2: with a previous applied speed in bounds, calculate_fan_speed
returns the previous speed exactly when the newly computed (float) speed
differs from it by strictly less than the threshold 2; a difference of at
least 2 (in particular exactly 2) yields the truncated new value, and with
no previous speed the truncated new value is returned unconditionally. -/
theorem calculate_fan_speed_hysteresis (temp : ℝ) (prev : ℤ)
    (hlo : MIN_SPEED ≤ prev) (hhi : prev ≤ MAX_SPEED) :
    (calculate_fan_speed temp (some prev) = prev ↔
        |exponential_fan_curve_default temp - (prev : ℝ)| < 2) ∧
      (2 ≤ |exponential_fan_curve_default temp - (prev : ℝ)| →
        calculate_fan_speed temp (some prev) =
          pyInt (exponential_fan_curve_default temp)) ∧
      calculate_fan_speed temp none =
        pyInt (exponential_fan_curve_default temp) := by
  have hb := exponential_fan_curve_default_bounds temp
  have hpos : (0 : ℝ) ≤ exponential_fan_curve_default temp := by linarith
  have hfloor : pyInt (exponential_fan_curve_default temp) =
      Int.floor (exponential_fan_curve_default temp) := by
    simp only [pyInt]
    rw [if_pos hpos]
  refine ⟨⟨?_, ?_⟩, ?_, rfl⟩
  · intro h
    by_contra hcon
    rw [calculate_fan_speed_some, if_neg hcon, hfloor] at h
    have h1 : ((prev : ℤ) : ℝ) ≤ exponential_fan_curve_default temp := by
      rw [← h]
      exact_mod_cast Int.floor_le (exponential_fan_curve_default temp)
    have h2 : exponential_fan_curve_default temp < ((prev : ℤ) : ℝ) + 1 := by
      rw [← h]
      exact_mod_cast Int.lt_floor_add_one (exponential_fan_curve_default temp)
    exact hcon (by rw [abs_lt]; constructor <;> linarith)
  · intro h
    rw [calculate_fan_speed_some, if_pos h]
  · intro h
    rw [calculate_fan_speed_some, if_neg (not_lt.2 h)]

/-- Witness for C2 at temperature 70 with previous speed 50: the curve gives
18, the gap 32 is at least 2, so the new value applies. -/
theorem calculate_fan_speed_hysteresis_witness :
    (MIN_SPEED ≤ (50 : ℤ) ∧ (50 : ℤ) ≤ MAX_SPEED) ∧
      ((calculate_fan_speed 70 (some 50) = 50 ↔
          |exponential_fan_curve_default 70 - ((50 : ℤ) : ℝ)| < 2) ∧
        (2 ≤ |exponential_fan_curve_default 70 - ((50 : ℤ) : ℝ)| →
          calculate_fan_speed 70 (some 50) =
            pyInt (exponential_fan_curve_default 70)) ∧
        calculate_fan_speed 70 none =
          pyInt (exponential_fan_curve_default 70)) :=
  ⟨⟨by decide, by decide⟩,
    calculate_fan_speed_hysteresis 70 50 (by decide) (by decide)⟩

/- The control loop (main). One tick of the while-body is modelled as a
function of the loop state and the tick's environment inputs: the sensor
outcome (None on a failed read, per get_gpu_temperatures, which never
returns an empty list) and whether the actuator write succeeds
(set_fan_speed's boolean result). A tick yields the new state, the actuator
command attempted this tick (if any), and the sleep duration. -/

structure LoopState where
  temp_averager : TemperatureAverager
  current_fan_speed : ℤ

noncomputable def tick (s : LoopState) (sensor : Option (List ℝ))
    (actuator_ok : Bool) : LoopState × Option ℤ × ℕ :=
  match sensor with
  | none => (s, none, CHECK_INTERVAL)
  | some temps =>
      let current_max_temp := list_max temps
      let averager := s.temp_averager.add_temperature current_max_temp
      if averager.is_ready then
        match averager.get_smoothed_temperature with
        | some smoothed_max_temp =>
            let new_fan_speed :=
              calculate_fan_speed smoothed_max_temp (some s.current_fan_speed)
            if new_fan_speed = s.current_fan_speed then
              (⟨averager, s.current_fan_speed⟩, none, CHECK_INTERVAL)
            else if actuator_ok then
              (⟨averager, new_fan_speed⟩, some new_fan_speed, CHECK_INTERVAL)
            else
              (⟨averager, s.current_fan_speed⟩, some new_fan_speed,
                CHECK_INTERVAL)
        | none =>
            -- unreachable: the window is nonempty right after an add
            (⟨averager, s.current_fan_speed⟩, none, CHECK_INTERVAL)
      else (⟨averager, s.current_fan_speed⟩, none, CHECK_INTERVAL)

/-- One loop iteration's environment: the shutdown flag as observed at the
top of the iteration, then the sensor and actuator outcomes of the tick. -/
structure TickIn where
  shutdown : Bool
  sensor : Option (List ℝ)
  actuator_ok : Bool

/-- The while-loop: at the top of each iteration the shutdown flag is
consulted; once observed true the loop exits at once, otherwise the tick
runs. Returns the final state and the actuator commands issued. -/
noncomputable def run (s : LoopState) : List TickIn → LoopState × List ℤ
  | [] => (s, [])
  | i :: rest =>
      if i.shutdown then (s, [])
      else
        let r := tick s i.sensor i.actuator_ok
        let rr := run r.1 rest
        (rr.1, r.2.1.toList ++ rr.2)

/-- Init of main: empty averager at the configured window size, applied
speed set to MIN_SPEED. -/
def init_state : LoopState :=
  ⟨TemperatureAverager.init SMOOTHING_SAMPLES, MIN_SPEED⟩

/-- main: one initial set_fan_speed(MIN_SPEED) call whose result is
discarded, then the polling loop. -/
noncomputable def main_run (init_actuator_ok : Bool) (trace : List TickIn) :
    LoopState × List ℤ :=
  let r := run init_state trace
  (r.1, MIN_SPEED :: r.2)

/-- Claim C6: on a warmed-up tick whose decided speed differs from the
applied speed, an actuator command for the decided speed is attempted, and
the applied speed becomes the decided value exactly when the command
succeeds; on failure it is left unchanged (the window update from the add
still happens, as in the source). -/
theorem tick_actuator_sync (s : LoopState) (temps : List ℝ)
    (actuator_ok : Bool) (sm : ℝ)
    (hready : (s.temp_averager.add_temperature (list_max temps)).is_ready
      = true)
    (hsm : (s.temp_averager.add_temperature
      (list_max temps)).get_smoothed_temperature = some sm)
    (hne : calculate_fan_speed sm (some s.current_fan_speed) ≠
      s.current_fan_speed) :
    tick s (some temps) actuator_ok =
      (⟨s.temp_averager.add_temperature (list_max temps),
          if actuator_ok then calculate_fan_speed sm (some s.current_fan_speed)
          else s.current_fan_speed⟩,
        some (calculate_fan_speed sm (some s.current_fan_speed)),
        CHECK_INTERVAL) := by
  simp only [tick, hready, hsm, if_true]
  rw [if_neg hne]
  cases actuator_ok with
  | true => simp
  | false => simp

/-- Witness for C6: five samples of 70 in a window of 10, applied speed 50;
the smoothed temperature is 70, the curve gives 18, the change applies. -/
theorem tick_actuator_sync_witness :
    (((⟨⟨[70, 70, 70, 70, 70], 10⟩, 50⟩ :
          LoopState).temp_averager.add_temperature
        (list_max [70])).is_ready = true ∧
      ((⟨⟨[70, 70, 70, 70, 70], 10⟩, 50⟩ :
          LoopState).temp_averager.add_temperature
        (list_max [70])).get_smoothed_temperature = some 70 ∧
      calculate_fan_speed 70 (some 50) ≠ 50) ∧
      tick (⟨⟨[70, 70, 70, 70, 70], 10⟩, 50⟩ : LoopState) (some [70]) true =
        (⟨(⟨⟨[70, 70, 70, 70, 70], 10⟩, 50⟩ :
              LoopState).temp_averager.add_temperature (list_max [70]),
            if true then calculate_fan_speed 70 (some 50) else 50⟩,
          some (calculate_fan_speed 70 (some 50)), CHECK_INTERVAL) := by
  have hready : ((⟨⟨[70, 70, 70, 70, 70], 10⟩, 50⟩ :
      LoopState).temp_averager.add_temperature (list_max [70])).is_ready
      = true := rfl
  have hsm : ((⟨⟨[70, 70, 70, 70, 70], 10⟩, 50⟩ :
      LoopState).temp_averager.add_temperature
      (list_max [70])).get_smoothed_temperature = some 70 := by
    simp only [TemperatureAverager.add_temperature,
      TemperatureAverager.get_smoothed_temperature, list_max]
    norm_num
  have hcurve : exponential_fan_curve_default 70 = 18 := by
    rw [exponential_fan_curve_default,
      exponential_fan_curve_eq_low _ _ _ (by norm_num [TEMP_LOW])]
    norm_num [MIN_SPEED]
  have hne : calculate_fan_speed 70 (some 50) ≠ 50 := by
    rw [calculate_fan_speed_some, hcurve]
    rw [if_neg (by norm_num)]
    simp only [pyInt]
    rw [if_pos (by norm_num)]
    norm_num
  exact ⟨⟨hready, hsm, hne⟩,
    tick_actuator_sync ⟨⟨[70, 70, 70, 70, 70], 10⟩, 50⟩ [70] true 70 hready
      hsm hne⟩

/-- Claim C7: a failed sensor read changes nothing: the tick leaves the
state (applied speed and averaging window) untouched, issues no actuator
command, sleeps the full poll interval; and any number of consecutive
failed-read iterations leaves the loop exactly where it was, continuing
with the rest of the trace. -/
theorem tick_sensor_fail_frame (s : LoopState) (actuator_ok : Bool)
    (n : ℕ) (rest : List TickIn) :
    tick s none actuator_ok = (s, none, CHECK_INTERVAL) ∧
      run s (List.replicate n ⟨false, none, actuator_ok⟩ ++ rest) =
        run s rest := by
  refine ⟨rfl, ?_⟩
  induction n with
  | zero => simp
  | succ m ih =>
      rw [List.replicate_succ, List.cons_append]
      show run s (⟨false, none, actuator_ok⟩ ::
        (List.replicate m ⟨false, none, actuator_ok⟩ ++ rest)) = run s rest
      rw [show run s (⟨false, none, actuator_ok⟩ ::
          (List.replicate m ⟨false, none, actuator_ok⟩ ++ rest)) =
          ((run (tick s none actuator_ok).1
              (List.replicate m ⟨false, none, actuator_ok⟩ ++ rest)).1,
            (tick s none actuator_ok).2.1.toList ++
              (run (tick s none actuator_ok).1
                (List.replicate m ⟨false, none, actuator_ok⟩ ++ rest)).2)
          from rfl]
      rw [show tick s none actuator_ok = (s, none, CHECK_INTERVAL) from rfl]
      simpa using ih

/-- Claim C9: once the shutdown flag is observed (at the top of an
iteration, before any work of that tick), the loop exits immediately: no
further actuator command is issued and the state — in particular the last
applied speed — is left exactly as it was. -/
theorem run_shutdown_exits (s : LoopState) (sensor : Option (List ℝ))
    (actuator_ok : Bool) (rest : List TickIn) :
    run s (⟨true, sensor, actuator_ok⟩ :: rest) = (s, []) := rfl

/-- Claim C10: at startup the applied speed is MIN_SPEED and one actuator
command for MIN_SPEED is issued before the loop; the command's result is
discarded, so the run is identical whether it succeeds or fails, and the
in-memory applied speed is MIN_SPEED either way. -/
theorem main_run_init (init_actuator_ok : Bool) (trace : List TickIn) :
    main_run init_actuator_ok trace = main_run true trace ∧
      (main_run init_actuator_ok trace).2.head? = some MIN_SPEED ∧
      (main_run init_actuator_ok []).1.current_fan_speed = MIN_SPEED :=
  ⟨rfl, rfl, rfl⟩
